import Mathlib

/-!
Verification development for the `surreal-arxiv-import` repository.

The whole program is the synchronous function `load_and_insert_data` in
`src/surreal_import/main.py`.  It streams a top-level JSON array from a file
with `ijson`, connects to a SurrealDB instance, and inserts every decoded
array element into the fixed table `arxiv_data`, keeping three counters
(`processed_count`, `inserted_count`, `failed_count`).  The embedding below
models the decoded record values, the sink (constructor / connect / use /
create / close behaviour), the byte source (either a stream of decoded
elements with an optional malformed suffix, or a missing file), and the full
run of the function, including which exceptions each `except` block catches
and the `finally` block that closes the connection.
-/

/-- A decoded JSON value, as yielded by `ijson.items` with the item selector for one
element of the top-level array. -/
inductive JVal where
  | obj (fields : List (String × JVal))
  | arr (elems : List JVal)
  | str (s : String)
  | num (n : Int)
  | bool (b : Bool)
  | null

/-- Python `isinstance(record, dict)` (line 79): only a JSON object decodes
to a `dict`. -/
def JVal.isDict : JVal → Bool
  | .obj _ => true
  | _ => false

/-- Result of one `db.create(table_name, record)` call (line 87):
either it returns a value (whose Python truthiness is `truthy`), or it
raises an exception.  `alreadyExists` records whether the raised error
indicates a uniqueness/identity conflict at the sink (an "already exists"
condition); the source never inspects this, which is what claim C2 is
about. -/
inductive WriteRes where
  | ok (truthy : Bool)
  | exn (alreadyExists : Bool)

/-- Behaviour of the SurrealDB client for one run: whether the constructor
`Surreal(database_url)` (line 43), `db.connect()` (line 46) and
`db.use(namespace, database)` (line 51) succeed, the result of the i-th
`db.create` call (0-indexed, in call order), and whether `db.close()`
(line 137) raises. -/
structure SinkSpec where
  constructOk : Bool
  connectOk : Bool
  useOk : Bool
  writeRes : Nat → WriteRes
  closeRaises : Bool

/-- The fatal error kinds the source logs: a mid-stream `ijson.JSONError`
(lines 104-108, logged as occurring near record `nearRecord`),
`FileNotFoundError` on opening the input (lines 109-110), and any error
during connection setup or `db.use` (lines 127-129). -/
inductive FatalErr where
  | decodeError (nearRecord : Nat)
  | fileNotFound
  | setupError

/-- The byte source as seen through `open(file_path)` in binary mode and
`ijson.items`: either the file is missing (`FileNotFoundError`), or it
yields the list `items` of decoded elements and then, when `badSuffix` is
true, raises `ijson.JSONError` because of malformed trailing bytes. -/
inductive SourceData where
  | notFound
  | stream (items : List JVal) (badSuffix : Bool)

/-- The mutable locals of the streaming loop (lines 34-36), plus the list
of `db.create` invocations issued so far, each recorded as
(table argument, record argument). -/
structure LoopState where
  processed_count : Nat
  inserted_count : Nat
  failed_count : Nat
  writes : List (String × JVal)

/-- Counter state on entry to the loop (lines 34-36: all zero, no create
call issued yet). -/
def initLoop : LoopState := ⟨0, 0, 0, []⟩

/-- The table every record is written to (line 37): a local constant, not a
parameter of `load_and_insert_data`. -/
def table_name : String := "arxiv_data"

/-- One iteration of the `for record in parser` loop (lines 73-102):
`processed_count` is incremented first (line 74); a non-dict record only
increments `failed_count` (lines 79-83) and never reaches `db.create`;
otherwise `db.create(table_name, record)` is invoked (line 87) and the
outcome is classified: truthy return increments `inserted_count`
(lines 89-91), falsy return increments `failed_count` (lines 92-95), and
any exception from the call is caught and increments `failed_count`
(lines 97-102). -/
def processRecord (sink : SinkSpec) (s : LoopState) (r : JVal) : LoopState :=
  if r.isDict then
    match sink.writeRes s.writes.length with
    | .ok true =>
        { s with processed_count := s.processed_count + 1,
                 inserted_count := s.inserted_count + 1,
                 writes := s.writes ++ [(table_name, r)] }
    | .ok false =>
        { s with processed_count := s.processed_count + 1,
                 failed_count := s.failed_count + 1,
                 writes := s.writes ++ [(table_name, r)] }
    | .exn _ =>
        { s with processed_count := s.processed_count + 1,
                 failed_count := s.failed_count + 1,
                 writes := s.writes ++ [(table_name, r)] }
  else
    { s with processed_count := s.processed_count + 1,
             failed_count := s.failed_count + 1 }

/-- The observable outcome of one run of `load_and_insert_data`: the final
counters, the list of `db.create` invocations, the single fatal error the
function logged (if any), whether the `db` variable was bound to a
connection object (so the `finally` block at lines 130-140 finds it
non-None), how many times `db.close()` was invoked, and the exception the
function propagated to its caller.  Every `except` block in the source
(lines 104-114, 127-129, 139-140) logs and falls through without
re-raising, so `raised` is `none` on every path. -/
structure RunResult where
  processed_count : Nat
  inserted_count : Nat
  failed_count : Nat
  writes : List (String × JVal)
  loggedFatal : Option FatalErr
  dbOpened : Bool
  closeCalls : Nat
  raised : Option FatalErr

/-- The streaming phase (lines 69-114): on `FileNotFoundError` nothing was
processed and the error is logged (lines 109-110); otherwise the loop runs
over all yielded items, and a malformed suffix raises `ijson.JSONError`
after the last yielded item, logged as near record `processed_count + 1`
(line 106). -/
def runStream (sink : SinkSpec) (src : SourceData) : LoopState × Option FatalErr :=
  match src with
  | .notFound => (initLoop, some .fileNotFound)
  | .stream items badSuffix =>
      let s := items.foldl (processRecord sink) initLoop
      (s, if badSuffix then some (.decodeError (s.processed_count + 1)) else none)

/-- The whole of `load_and_insert_data(file_path, database_url, namespace,
database)` (lines 21-140; the Python parameter `namespace` is `ns` here
because `namespace` is a Lean keyword).  If `Surreal(database_url)` raises,
`db` stays `None`: the outer handler (lines 127-129) logs a setup error and
the `finally` block does not call `close`.  If `db.connect()` or `db.use`
raises, the same handler logs a setup error, but `db` is bound, so `close`
is called once.  Otherwise the streaming phase runs and `close` is called
once.  A `db.close()` exception is caught and only logged (lines 139-140),
so `sink.closeRaises` influences no field of the result.  No path
re-raises, so `raised` is `none` everywhere. -/
def load_and_insert_data (file_path database_url ns database : String)
    (sink : SinkSpec) (src : SourceData) : RunResult :=
  if sink.constructOk then
    if sink.connectOk && sink.useOk then
      match runStream sink src with
      | (s, ferr) =>
          { processed_count := s.processed_count
            inserted_count := s.inserted_count
            failed_count := s.failed_count
            writes := s.writes
            loggedFatal := ferr
            dbOpened := true
            closeCalls := 1
            raised := none }
    else
      { processed_count := 0, inserted_count := 0, failed_count := 0,
        writes := [], loggedFatal := some .setupError,
        dbOpened := true, closeCalls := 1, raised := none }
  else
    { processed_count := 0, inserted_count := 0, failed_count := 0,
      writes := [], loggedFatal := some .setupError,
      dbOpened := false, closeCalls := 0, raised := none }

/-- A sink whose setup succeeds and whose every `db.create` call returns a
truthy value (a working sink). -/
def okSink : SinkSpec :=
  { constructOk := true, connectOk := true, useOk := true,
    writeRes := fun _ => .ok true, closeRaises := false }

/-- A sink whose setup succeeds and whose every `db.create` call returns a
falsy value without raising. -/
def falsySink : SinkSpec :=
  { constructOk := true, connectOk := true, useOk := true,
    writeRes := fun _ => .ok false, closeRaises := false }

/-- A sink whose setup succeeds and whose every `db.create` call raises an
error that indicates the record already exists (a uniqueness conflict). -/
def conflictSink : SinkSpec :=
  { constructOk := true, connectOk := true, useOk := true,
    writeRes := fun _ => .exn true, closeRaises := false }

/-- A concrete mapping record. -/
def oneRec : JVal := .obj [("id", .num 1)]

/-- Every loop iteration increments `processed_count` by exactly one. -/
theorem processRecord_processed (sink : SinkSpec) (s : LoopState) (r : JVal) :
    (processRecord sink s r).processed_count = s.processed_count + 1 := by
  unfold processRecord
  by_cases h : r.isDict
  · simp only [h, if_true]
    cases sink.writeRes s.writes.length with
    | ok b => cases b <;> rfl
    | exn b => rfl
  · simp [h]

/-- Every loop iteration increments exactly one of `inserted_count` and
`failed_count`. -/
theorem processRecord_sum (sink : SinkSpec) (s : LoopState) (r : JVal) :
    (processRecord sink s r).inserted_count + (processRecord sink s r).failed_count
      = s.inserted_count + s.failed_count + 1 := by
  unfold processRecord
  by_cases h : r.isDict
  · simp only [h, if_true]
    cases sink.writeRes s.writes.length with
    | ok b => cases b <;> simp <;> omega
    | exn b => simp; omega
  · simp [h]; omega

/-- A loop iteration appends one `db.create` invocation for a dict record
and none for a non-dict record. -/
theorem processRecord_writes (sink : SinkSpec) (s : LoopState) (r : JVal) :
    (processRecord sink s r).writes
      = s.writes ++ (if r.isDict then [(table_name, r)] else []) := by
  unfold processRecord
  by_cases h : r.isDict
  · simp only [h, if_true]
    cases sink.writeRes s.writes.length with
    | ok b => cases b <;> rfl
    | exn b => rfl
  · simp [h]

/-- Running the loop over a list of items: the processed counter advances by
the number of items, the inserted and failed counters together advance by
the number of items, and the `db.create` invocations issued are precisely
one per dict item, in order, targeting `table_name`. -/
theorem foldl_loop_spec (sink : SinkSpec) (items : List JVal) (s : LoopState) :
    (items.foldl (processRecord sink) s).processed_count
        = s.processed_count + items.length
    ∧ (items.foldl (processRecord sink) s).inserted_count
        + (items.foldl (processRecord sink) s).failed_count
        = s.inserted_count + s.failed_count + items.length
    ∧ (items.foldl (processRecord sink) s).writes
        = s.writes ++ (items.filter (fun x => x.isDict)).map (fun x => (table_name, x)) := by
  induction items generalizing s with
  | nil => simp
  | cons r rest ih =>
    obtain ⟨h1, h2, h3⟩ := ih (processRecord sink s r)
    refine ⟨?_, ?_, ?_⟩
    · rw [List.foldl_cons, h1, processRecord_processed]
      simp [List.length_cons]; omega
    · rw [List.foldl_cons, h2, processRecord_sum]
      simp [List.length_cons]; omega
    · rw [List.foldl_cons, h3, processRecord_writes]
      by_cases h : r.isDict <;> simp [List.filter_cons, h]

/-- Mapping first components over the write log of a record list gives a
constant list of `table_name`. -/
theorem map_fst_writes (l : List JVal) :
    (l.map (fun x => (table_name, x))).map Prod.fst
      = List.replicate l.length table_name := by
  induction l with
  | nil => rfl
  | cons x xs ih => simp [List.replicate_succ, ih]

/-- Normal form of a run whose connection setup succeeds and whose source
streams `items` (with or without a malformed suffix). -/
theorem load_stream_spec (file_path database_url ns database : String)
    (sink : SinkSpec) (items : List JVal) (badSuffix : Bool)
    (hc : sink.constructOk = true) (hk : sink.connectOk = true) (hu : sink.useOk = true) :
    load_and_insert_data file_path database_url ns database sink (.stream items badSuffix)
      = { processed_count := items.length
          inserted_count := (items.foldl (processRecord sink) initLoop).inserted_count
          failed_count := (items.foldl (processRecord sink) initLoop).failed_count
          writes := (items.filter (fun x => x.isDict)).map (fun x => (table_name, x))
          loggedFatal := if badSuffix then some (.decodeError (items.length + 1)) else none
          dbOpened := true
          closeCalls := 1
          raised := none } := by
  obtain ⟨h1, h2, h3⟩ := foldl_loop_spec sink items initLoop
  unfold load_and_insert_data runStream
  simp only [hc, hk, hu, Bool.and_self, if_true]
  simp only [initLoop, Nat.zero_add, List.nil_append] at h1 h3 ⊢
  simp [h1, h3]

/-- Shape facts holding on every path of a run: no exception is re-raised
to the caller, `db.close()` is called exactly once when the connection
object was created and never otherwise, and the connection object is
created exactly when the constructor succeeds. -/
theorem run_shape (file_path database_url ns database : String)
    (sink : SinkSpec) (src : SourceData) :
    (load_and_insert_data file_path database_url ns database sink src).raised = none
    ∧ (load_and_insert_data file_path database_url ns database sink src).closeCalls
        = (if (load_and_insert_data file_path database_url ns database sink src).dbOpened then 1 else 0)
    ∧ (load_and_insert_data file_path database_url ns database sink src).dbOpened
        = sink.constructOk := by
  unfold load_and_insert_data
  by_cases h : sink.constructOk = true
  · simp only [h, if_true]
    by_cases h2 : (sink.connectOk && sink.useOk) = true
    · simp only [h2, if_true]
      rcases hr : runStream sink src with ⟨s, ferr⟩
      simp [h]
    · simp [h2, h]
  · simp [h]

/-- The write log of any run is a list of records each paired with
`table_name`. -/
theorem load_writes_shape (file_path database_url ns database : String)
    (sink : SinkSpec) (src : SourceData) :
    ∃ l : List JVal,
      (load_and_insert_data file_path database_url ns database sink src).writes
        = l.map (fun x => (table_name, x)) := by
  unfold load_and_insert_data
  by_cases h : sink.constructOk = true
  · simp only [h, if_true]
    by_cases h2 : (sink.connectOk && sink.useOk) = true
    · simp only [h2, if_true]
      rcases src with _ | ⟨items, bs⟩
      · exact ⟨[], rfl⟩
      · obtain ⟨h1, hsum, h3⟩ := foldl_loop_spec sink items initLoop
        refine ⟨items.filter (fun x => x.isDict), ?_⟩
        simpa [runStream, initLoop] using h3
    · simp only [h2]
      exact ⟨[], rfl⟩
  · simp only [h]
    exact ⟨[], rfl⟩

/-- C1: after a run whose connection setup succeeds over a valid array
document, the inserted and failed counters sum to the processed counter
(the source keeps no duplicate counter, so the duplicate tally of the claim
is identically zero), and the processed counter equals the number of array
elements whenever no mid-stream decode error occurs. -/
theorem C1_run_accounting (file_path database_url ns database : String)
    (sink : SinkSpec) (items : List JVal) (badSuffix : Bool)
    (hc : sink.constructOk = true) (hk : sink.connectOk = true)
    (hu : sink.useOk = true) :
    (load_and_insert_data file_path database_url ns database sink
          (.stream items badSuffix)).inserted_count
        + (load_and_insert_data file_path database_url ns database sink
          (.stream items badSuffix)).failed_count
      = (load_and_insert_data file_path database_url ns database sink
          (.stream items badSuffix)).processed_count
    ∧ (badSuffix = false →
        (load_and_insert_data file_path database_url ns database sink
          (.stream items badSuffix)).processed_count = items.length) := by
  rw [load_stream_spec _ _ _ _ _ _ _ hc hk hu]
  obtain ⟨h1, h2, h3⟩ := foldl_loop_spec sink items initLoop
  simp only [initLoop] at h2
  exact ⟨by simpa using h2, fun _ => rfl⟩

/-- Witness for C1 at a one-element document and a working sink. -/
theorem C1_run_accounting_witness :
    (load_and_insert_data "f" "u" "n" "d" okSink (.stream [oneRec] false)).inserted_count
        + (load_and_insert_data "f" "u" "n" "d" okSink (.stream [oneRec] false)).failed_count
      = (load_and_insert_data "f" "u" "n" "d" okSink (.stream [oneRec] false)).processed_count :=
  (C1_run_accounting "f" "u" "n" "d" okSink [oneRec] false rfl rfl rfl).1

/-- C2 counterexample: a write whose error signals that the record already
exists (a uniqueness conflict) is counted in `failed_count`, not treated as
a duplicate: the source catches every exception from `db.create`
identically (lines 97-102) and keeps no duplicate tally at all. -/
theorem C2_counterexample :
    (load_and_insert_data "f" "u" "n" "d" conflictSink (.stream [oneRec] false)).failed_count = 1
    ∧ (load_and_insert_data "f" "u" "n" "d" conflictSink
        (.stream [oneRec] false)).inserted_count = 0 :=
  ⟨rfl, rfl⟩

/-- C2 amended: every error raised by `db.create`, whether or not it
indicates a uniqueness conflict, increments `failed_count` and leaves
`inserted_count` unchanged; the code performs no duplicate classification. -/
theorem C2_all_errors_failed (sink : SinkSpec) (s : LoopState) (r : JVal)
    (conflict : Bool) (hd : r.isDict = true)
    (hw : sink.writeRes s.writes.length = .exn conflict) :
    (processRecord sink s r).failed_count = s.failed_count + 1
    ∧ (processRecord sink s r).inserted_count = s.inserted_count := by
  unfold processRecord
  simp [hd, hw]

/-- Witness for C2 amended at a conflict-raising sink. -/
theorem C2_all_errors_failed_witness :
    (processRecord conflictSink initLoop oneRec).failed_count = initLoop.failed_count + 1
    ∧ (processRecord conflictSink initLoop oneRec).inserted_count = initLoop.inserted_count :=
  C2_all_errors_failed conflictSink initLoop oneRec true rfl rfl

/-- C3: a decoded element that is not a mapping increments the processed
and failed counters and issues no `db.create` call; and on the array
[{"a":1}, "not-a-mapping", {"b":2}] with a working sink the run ends with
processed=3, inserted=2, failed=1 and exactly two write invocations. -/
theorem C3_nonmapping_failed (sink : SinkSpec) (s : LoopState) (r : JVal)
    (hd : r.isDict = false) :
    processRecord sink s r
        = { s with processed_count := s.processed_count + 1,
                   failed_count := s.failed_count + 1 }
    ∧ ((load_and_insert_data "f" "u" "n" "d" okSink
          (.stream [.obj [("a", .num 1)], .str "not-a-mapping", .obj [("b", .num 2)]]
            false)).processed_count = 3
        ∧ (load_and_insert_data "f" "u" "n" "d" okSink
          (.stream [.obj [("a", .num 1)], .str "not-a-mapping", .obj [("b", .num 2)]]
            false)).inserted_count = 2
        ∧ (load_and_insert_data "f" "u" "n" "d" okSink
          (.stream [.obj [("a", .num 1)], .str "not-a-mapping", .obj [("b", .num 2)]]
            false)).failed_count = 1
        ∧ (load_and_insert_data "f" "u" "n" "d" okSink
          (.stream [.obj [("a", .num 1)], .str "not-a-mapping", .obj [("b", .num 2)]]
            false)).writes.length = 2) := by
  constructor
  · unfold processRecord
    simp [hd]
  · exact ⟨rfl, rfl, rfl, rfl⟩

/-- Witness for C3 at a concrete non-mapping element. -/
theorem C3_nonmapping_failed_witness :
    processRecord okSink initLoop (JVal.str "x")
      = { initLoop with processed_count := initLoop.processed_count + 1,
                        failed_count := initLoop.failed_count + 1 } :=
  (C3_nonmapping_failed okSink initLoop (JVal.str "x") rfl).1

/-- C4 counterexample: on a run that hits a mid-stream decode error the
fatal error is only logged; nothing is raised to the caller, so the claim
that fatal kinds are surfaced to the caller as a terminal error fails. -/
theorem C4_counterexample :
    (load_and_insert_data "f" "u" "n" "d" okSink (.stream [oneRec] true)).loggedFatal
        = some (.decodeError 2)
    ∧ (load_and_insert_data "f" "u" "n" "d" okSink (.stream [oneRec] true)).raised = none :=
  ⟨rfl, rfl⟩

/-- C4 amended: fatal kinds abort the streaming and are recorded as a
single logged terminal error next to the partial counters, but they are
absorbed: no run ever raises anything to the caller, and per-record
failures (any `db.create` behaviour whatsoever) never produce a run-level
error. -/
theorem C4_fatal_logged_not_raised (file_path database_url ns database : String)
    (sink sink2 : SinkSpec) (src : SourceData) (items : List JVal)
    (hc : sink.constructOk = true) (hk : sink.connectOk = true)
    (hu : sink.useOk = true) :
    (load_and_insert_data file_path database_url ns database sink2 src).raised = none
    ∧ (load_and_insert_data file_path database_url ns database sink
        (.stream items true)).loggedFatal = some (.decodeError (items.length + 1))
    ∧ (load_and_insert_data file_path database_url ns database sink
        .notFound).loggedFatal = some .fileNotFound
    ∧ (load_and_insert_data file_path database_url ns database sink
        (.stream items false)).loggedFatal = none := by
  refine ⟨(run_shape file_path database_url ns database sink2 src).1, ?_, ?_, ?_⟩
  · rw [load_stream_spec _ _ _ _ _ _ _ hc hk hu]
    rfl
  · unfold load_and_insert_data
    simp [hc, hk, hu, runStream]
  · rw [load_stream_spec _ _ _ _ _ _ _ hc hk hu]
    rfl

/-- Witness for C4 amended at a decode-error run against a working sink. -/
theorem C4_fatal_logged_not_raised_witness :
    (load_and_insert_data "f" "u" "n" "d" okSink
        (.stream [oneRec, oneRec] true)).loggedFatal = some (.decodeError 3) :=
  (C4_fatal_logged_not_raised "f" "u" "n" "d" okSink okSink .notFound
    [oneRec, oneRec] rfl rfl rfl).2.1

/-- C5: when the byte stream yields K well-formed elements (K at least one)
and then malformed bytes, the run records an outcome for exactly those K
elements, keeps the counts accrued before the failure, logs a decode error
attributing the failure to the position after the last processed record,
and issues exactly the writes for the dict elements among them. -/
theorem C5_decode_error_after_k (file_path database_url ns database : String)
    (sink : SinkSpec) (items : List JVal)
    (hc : sink.constructOk = true) (hk : sink.connectOk = true)
    (hu : sink.useOk = true) (hK : 1 ≤ items.length) :
    (load_and_insert_data file_path database_url ns database sink
        (.stream items true)).processed_count = items.length
    ∧ (load_and_insert_data file_path database_url ns database sink
          (.stream items true)).inserted_count
        + (load_and_insert_data file_path database_url ns database sink
          (.stream items true)).failed_count = items.length
    ∧ (load_and_insert_data file_path database_url ns database sink
        (.stream items true)).loggedFatal = some (.decodeError (items.length + 1))
    ∧ (load_and_insert_data file_path database_url ns database sink
        (.stream items true)).writes
        = (items.filter (fun x => x.isDict)).map (fun x => (table_name, x)) := by
  rw [load_stream_spec _ _ _ _ _ _ _ hc hk hu]
  obtain ⟨h1, h2, h3⟩ := foldl_loop_spec sink items initLoop
  simp only [initLoop] at h2
  exact ⟨rfl, by simpa using h2, rfl, rfl⟩

/-- Witness for C5 at one well-formed element followed by malformed bytes. -/
theorem C5_decode_error_after_k_witness :
    (load_and_insert_data "f" "u" "n" "d" falsySink (.stream [oneRec] true)).loggedFatal
      = some (.decodeError 2) :=
  (C5_decode_error_after_k "f" "u" "n" "d" falsySink [oneRec] rfl rfl rfl
    (by decide)).2.2.1

/-- C6: for a mapping record, `inserted_count` is incremented exactly when
`db.create` returns a truthy value, and a falsy return with no exception
increments `failed_count` and leaves `inserted_count` unchanged. -/
theorem C6_falsy_is_failed (sink : SinkSpec) (s : LoopState) (r : JVal)
    (hd : r.isDict = true) :
    ((processRecord sink s r).inserted_count = s.inserted_count + 1
        ↔ sink.writeRes s.writes.length = .ok true)
    ∧ (sink.writeRes s.writes.length = .ok false →
        (processRecord sink s r).failed_count = s.failed_count + 1
        ∧ (processRecord sink s r).inserted_count = s.inserted_count) := by
  unfold processRecord
  simp only [hd, if_true]
  cases hw : sink.writeRes s.writes.length with
  | ok b => cases b <;> simp [hw]
  | exn b => simp [hw]

/-- Witness for C6 at a sink whose create returns a falsy value. -/
theorem C6_falsy_is_failed_witness :
    (processRecord falsySink initLoop oneRec).failed_count = initLoop.failed_count + 1
    ∧ (processRecord falsySink initLoop oneRec).inserted_count = initLoop.inserted_count :=
  (C6_falsy_is_failed falsySink initLoop oneRec rfl).2 rfl

/-- C7: over a run with successful setup, the list of `db.create`
invocations is exactly one write per decoded mapping record, in stream
order: no mapping record is dropped, none is written twice or retried, and
non-mapping elements are never written. -/
theorem C7_write_exactly_once (file_path database_url ns database : String)
    (sink : SinkSpec) (items : List JVal) (badSuffix : Bool)
    (hc : sink.constructOk = true) (hk : sink.connectOk = true)
    (hu : sink.useOk = true) :
    (load_and_insert_data file_path database_url ns database sink
        (.stream items badSuffix)).writes
      = (items.filter (fun x => x.isDict)).map (fun x => (table_name, x)) := by
  rw [load_stream_spec _ _ _ _ _ _ _ hc hk hu]

/-- Witness for C7 at a two-element document with one non-mapping element. -/
theorem C7_write_exactly_once_witness :
    (load_and_insert_data "f" "u" "n" "d" okSink
        (.stream [oneRec, JVal.str "s"] false)).writes
      = ([oneRec, JVal.str "s"].filter (fun x => x.isDict)).map
          (fun x => (table_name, x)) :=
  C7_write_exactly_once "f" "u" "n" "d" okSink [oneRec, JVal.str "s"] false rfl rfl rfl

/-- C8: on every exit path of a run, `db.close()` is invoked exactly once
when the connection object was created and never when it was not, the
close happens at most once (so a second close of an already-closed handle
never occurs), the connection object exists exactly when the constructor
succeeded, and no path, including one where `db.close()` itself raises,
propagates an exception to the caller. -/
theorem C8_close_every_path (file_path database_url ns database : String)
    (sink : SinkSpec) (src : SourceData) :
    (load_and_insert_data file_path database_url ns database sink src).closeCalls
        = (if (load_and_insert_data file_path database_url ns database sink src).dbOpened
            then 1 else 0)
    ∧ (load_and_insert_data file_path database_url ns database sink src).closeCalls ≤ 1
    ∧ (load_and_insert_data file_path database_url ns database sink src).dbOpened
        = sink.constructOk
    ∧ (load_and_insert_data file_path database_url ns database sink src).raised = none := by
  obtain ⟨h1, h2, h3⟩ := run_shape file_path database_url ns database sink src
  refine ⟨h2, ?_, h3, h1⟩
  rw [h2]
  by_cases h : (load_and_insert_data file_path database_url ns database sink src).dbOpened
    <;> simp [h]

/-- C9: a run over the empty array document with successful setup completes
with all counters zero, no write attempted, no fatal error, and the
connection closed. -/
theorem C9_empty_array (file_path database_url ns database : String) (sink : SinkSpec)
    (hc : sink.constructOk = true) (hk : sink.connectOk = true)
    (hu : sink.useOk = true) :
    load_and_insert_data file_path database_url ns database sink (.stream [] false)
      = { processed_count := 0, inserted_count := 0, failed_count := 0, writes := [],
          loggedFatal := none, dbOpened := true, closeCalls := 1, raised := none } := by
  rw [load_stream_spec _ _ _ _ _ _ _ hc hk hu]
  rfl

/-- Witness for C9 at a working sink. -/
theorem C9_empty_array_witness :
    load_and_insert_data "f" "u" "n" "d" okSink (.stream [] false)
      = { processed_count := 0, inserted_count := 0, failed_count := 0, writes := [],
          loggedFatal := none, dbOpened := true, closeCalls := 1, raised := none } :=
  C9_empty_array "f" "u" "n" "d" okSink rfl rfl rfl

/-- C10: for every input configuration, sink behaviour and source, every
`db.create` invocation of the run targets the fixed table "arxiv_data",
which is the hard-coded local constant `table_name`, not a parameter of
`load_and_insert_data`. -/
theorem C10_table_hardcoded (file_path database_url ns database : String)
    (sink : SinkSpec) (src : SourceData) :
    table_name = "arxiv_data"
    ∧ (load_and_insert_data file_path database_url ns database sink src).writes.map Prod.fst
        = List.replicate
            (load_and_insert_data file_path database_url ns database sink src).writes.length
            "arxiv_data" := by
  obtain ⟨l, hl⟩ := load_writes_shape file_path database_url ns database sink src
  refine ⟨rfl, ?_⟩
  rw [hl, map_fst_writes, List.length_map]
  rfl
